import Mathlib

/-!
# Telemetry bridge: HTTP endpoint, service construction and shutdown

A shallow embedding of `internal/app/service.go`, `internal/app/config.go` and
`cmd/server/main.go`.

* Go strings that can carry arbitrary bytes (the request body, the `health`
  field, the published payload) are byte lists; strings that the program only
  ever builds from ASCII literals and decimal numbers (HTTP method, subject,
  listen address, log lines) are Lean strings.
* Go `int` values are `Int`; the program performs no arithmetic on them, so no
  wrap-around is involved and every statement over `Int` covers the 64-bit range.
* Calls into libraries (`encoding/json` decoding, `nats.Connect`,
  `(*nats.Conn).Publish`, `(*nats.Conn).Drain`, `(*http.Server).Shutdown`) are
  recorded as events of a trace; their results are supplied by the environment.
* How long a call takes is not part of the model: a run is the order of its
  calls and their results.
-/

namespace app

/-! ## Strings and formatting -/

/-- Byte strings: a Go `string` or `[]byte` is a sequence of bytes. -/
abbrev Bytes := List UInt8

/-- The bytes of a text made of ASCII characters. -/
def asciiBytes (s : String) : Bytes :=
  s.data.map (fun c => UInt8.ofNat c.toNat)

/-- Decimal rendering of an integer as `fmt` does for the verb `%d`: an optional
minus sign followed by the decimal digits of the magnitude. -/
def fmtInteger (v : Int) : List Char :=
  if v < 0 then '-' :: Nat.toDigits 10 v.natAbs else Nat.toDigits 10 v.natAbs

/-- The number a string of decimal digits denotes. -/
def decimalValue (cs : List Char) : Nat :=
  cs.foldl (fun acc c => acc * 10 + (c.toNat - 48)) 0

/-- The integer a decimal numeral with an optional leading minus sign denotes. -/
def parseInteger : List Char → Int
  | [] => 0
  | c :: rest =>
    if c = '-' then -(decimalValue rest : Int) else (decimalValue (c :: rest) : Int)

/-- Interpreter for the part of `fmt.Sprintf` the program uses: literal text and
the verb `%d` applied to integer operands. -/
def sprintfChars : List Char → List Int → List Char
  | '%' :: 'd' :: rest, a :: args => fmtInteger a ++ sprintfChars rest args
  | '%' :: 'd' :: rest, [] => "%!d(MISSING)".data ++ sprintfChars rest []
  | c :: rest, args => c :: sprintfChars rest args
  | [], _ => []

/-- The call `fmt.Sprintf(format, args...)` for integer operands. -/
def Sprintf (format : String) (args : List Int) : String :=
  ⟨sprintfChars format.data args⟩

/-- The constant `subjectDeviceTelemetry`. -/
def subjectDeviceTelemetry : String := "device.%d.telemetry"

/-! ## JSON encoding (`encoding/json`, as of Go 1.22) -/

/-- The constant `utf8.RuneError`. -/
def RuneError : Nat := 0xFFFD

/-- Whether `b` lies in the closed byte range from `lo` to `hi`. -/
def inRange (lo hi b : Nat) : Bool := decide (lo ≤ b) && decide (b ≤ hi)

/-- Model of `utf8.DecodeRuneInString`: the first rune of the input and its width
in bytes. A malformed or truncated sequence gives `(RuneError, 1)`, the empty
input gives `(RuneError, 0)`. Over-long forms, surrogates and values above
U+10FFFF are excluded through the accepted range of the second byte. -/
def DecodeRune (p : Bytes) : Nat × Nat :=
  match p.map UInt8.toNat with
  | [] => (RuneError, 0)
  | p0 :: rest =>
    if p0 < 0x80 then (p0, 1)
    else if p0 < 0xC2 ∨ 0xF4 < p0 then (RuneError, 1)
    else
      let lo := if p0 = 0xE0 then 0xA0 else if p0 = 0xF0 then 0x90 else 0x80
      let hi := if p0 = 0xED then 0x9F else if p0 = 0xF4 then 0x8F else 0xBF
      match rest with
      | [] => (RuneError, 1)
      | b1 :: rest1 =>
        if !inRange lo hi b1 then (RuneError, 1)
        else if p0 < 0xE0 then ((p0 % 0x20) * 0x40 + b1 % 0x40, 2)
        else
          match rest1 with
          | [] => (RuneError, 1)
          | b2 :: rest2 =>
            if !inRange 0x80 0xBF b2 then (RuneError, 1)
            else if p0 < 0xF0 then
              ((p0 % 0x10) * 0x1000 + (b1 % 0x40) * 0x40 + b2 % 0x40, 3)
            else
              match rest2 with
              | [] => (RuneError, 1)
              | b3 :: _ =>
                if !inRange 0x80 0xBF b3 then (RuneError, 1)
                else ((p0 % 0x08) * 0x40000 + (b1 % 0x40) * 0x1000
                        + (b2 % 0x40) * 0x40 + b3 % 0x40, 4)

/-- The table `htmlSafeSet`: the ASCII bytes that are copied unescaped when HTML
escaping is on (space to DEL except the double quote, ampersand, angle brackets
and backslash). -/
def htmlSafeSet (b : Nat) : Bool :=
  inRange 0x20 0x7F b && !(b = 0x22 || b = 0x26 || b = 0x3C || b = 0x3E || b = 0x5C)

/-- The lookup string `hex = "0123456789abcdef"`. -/
def hex (n : Nat) : UInt8 :=
  UInt8.ofNat ((Nat.digitChar (n % 16)).toNat)

/-- The escape sequence `appendString` writes for an ASCII byte outside
`htmlSafeSet`. -/
def escapeByte (b : Nat) : Bytes :=
  if b = 0x5C ∨ b = 0x22 then [0x5C, UInt8.ofNat b]
  else if b = 0x08 then asciiBytes "\\b"
  else if b = 0x0C then asciiBytes "\\f"
  else if b = 0x0A then asciiBytes "\\n"
  else if b = 0x0D then asciiBytes "\\r"
  else if b = 0x09 then asciiBytes "\\t"
  else asciiBytes "\\u00" ++ [hex (b / 16), hex (b % 16)]

/-- The loop of `appendString` with HTML escaping on. The first argument counts the
continuation bytes of a rune already written that remain to be stepped over. -/
def appendStringLoop : Nat → Bytes → Bytes
  | _, [] => []
  | skip + 1, _ :: rest => appendStringLoop skip rest
  | 0, b :: rest =>
    if b.toNat < 0x80 then
      (if htmlSafeSet b.toNat then [b] else escapeByte b.toNat) ++ appendStringLoop 0 rest
    else
      let r := DecodeRune (b :: rest)
      if r.1 = RuneError ∧ r.2 = 1 then
        asciiBytes "\\ufffd" ++ appendStringLoop 0 rest
      else if r.1 = 0x2028 ∨ r.1 = 0x2029 then
        asciiBytes "\\u202" ++ [hex (r.1 % 16)] ++ appendStringLoop (r.2 - 1) rest
      else
        (b :: rest).take r.2 ++ appendStringLoop (r.2 - 1) rest

/-- Model of `appendString(dst, src, escapeHTML = true)`: the JSON string literal for
`src`, between double quotes. -/
def appendString (src : Bytes) : Bytes :=
  [0x22] ++ appendStringLoop 0 src ++ [0x22]

/-- The Go values that occur as struct fields in this development: integers and
strings, which the encoder supports, and the kinds it rejects. -/
inductive GoValue where
  | int (v : Int)
  | string (s : Bytes)
  | unsupported (typeName : String)
  deriving DecidableEq, Repr

/-- A Go `error` value, identified by its message. -/
structure Error where
  text : String
  deriving DecidableEq, Repr

/-- The encoder chosen for a value by its kind: `intEncoder`, `stringEncoder`, or
`unsupportedTypeEncoder`, which fails with an `UnsupportedTypeError`. -/
def encodeValue : GoValue → Except Error Bytes
  | .int v => .ok (asciiBytes ⟨fmtInteger v⟩)
  | .string s => .ok (appendString s)
  | .unsupported t => .error ⟨"json: unsupported type: " ++ t⟩

/-- The members of a JSON object, each written as a quoted name, a colon and the
encoded value, separated by commas (`structEncoder.encode`). The encoding stops at
the first field that fails. -/
def encodeFields : Bool → List (String × GoValue) → Except Error Bytes
  | _, [] => .ok []
  | first, (name, v) :: rest =>
    match encodeValue v with
    | .error e => .error e
    | .ok bytes =>
      match encodeFields false rest with
      | .error e => .error e
      | .ok tail =>
        .ok ((if first then [] else asciiBytes ",") ++ asciiBytes ("\"" ++ name ++ "\":")
              ++ bytes ++ tail)

/-- Model of `json.Marshal` on a struct given by its exported fields in declaration
order, each with its JSON name. -/
def Marshal (fields : List (String × GoValue)) : Except Error Bytes :=
  match encodeFields true fields with
  | .error e => .error e
  | .ok members => .ok (asciiBytes "\x7b" ++ members ++ asciiBytes "\x7d")

/-! ## Data model (`service.go`, `config.go`) -/

/-- The struct `TelemetryRequest`, the decoded request body. -/
structure TelemetryRequest where
  DeviceId : Int
  Health : Bytes
  GpsLevel : Int
  deriving DecidableEq, Repr

/-- The struct `TelemetryMessage`, the message put on the bus. -/
structure TelemetryMessage where
  DeviceId : Int
  Health : Bytes
  GpsLevel : Int
  deriving DecidableEq, Repr

/-- The fields of `TelemetryMessage` under their `json` tags, as the encoder sees
them. -/
def TelemetryMessage.fields (m : TelemetryMessage) : List (String × GoValue) :=
  [("device_id", .int m.DeviceId), ("health", .string m.Health), ("gps_level", .int m.GpsLevel)]

/-- The JSON text of the object with the members `device_id`, `health` and
`gps_level`, in this order and without white space: the two numbers in decimal,
the string as a JSON string literal. -/
def telemetryJSON (d : Int) (h : Bytes) (g : Int) : Bytes :=
  asciiBytes "\x7b\"device_id\":" ++ asciiBytes ⟨fmtInteger d⟩
    ++ asciiBytes ",\"health\":" ++ appendString h
    ++ asciiBytes ",\"gps_level\":" ++ asciiBytes ⟨fmtInteger g⟩ ++ asciiBytes "\x7d"

/-- An element of `[]nats.Option`, carried to `nats.Connect` untouched. -/
structure NatsOption where
  tag : String
  deriving DecidableEq, Repr

/-- The struct `Config`. -/
structure Config where
  NatsUrl : String
  NatsOptions : List NatsOption
  Port : Int
  deriving DecidableEq, Repr

/-- The constructor `NewConfig`; `NatsOptions` keeps its zero value. -/
def NewConfig (natsUrl : String) (port : Int) : Config :=
  { NatsUrl := natsUrl, NatsOptions := [], Port := port }

/-- A `context.Context` as far as the program uses it: the time left until its
deadline in nanoseconds, if it has one. -/
structure Context where
  deadline : Option Nat
  deriving DecidableEq, Repr

/-- The root context `context.Background()`, without deadline. -/
def Background : Context := ⟨none⟩

/-- The call `context.WithTimeout(parent, d)`: the earlier of the deadline of the
parent and `d` from now. -/
def WithTimeout (parent : Context) (d : Nat) : Context :=
  match parent.deadline with
  | none => ⟨some d⟩
  | some p => ⟨some (min p d)⟩

/-- The constant `time.Second` in nanoseconds. -/
def Second : Nat := 1000000000

/-- The constant `stopTimeout`. -/
def stopTimeout : Nat := 30 * Second

/-- The error `context.DeadlineExceeded`. -/
def DeadlineExceeded : Error := ⟨"context deadline exceeded"⟩

/-! ## Effects -/

/-- What a run of the program does that is visible from outside: the calls into
the HTTP response writer, the log, the JSON library, the bus client and the HTTP
server, in program order. -/
inductive Event where
  | WriteHeader (statusCode : Nat)
  | Decode (body : Bytes)
  | Marshal (msg : TelemetryMessage)
  | Publish (subject : String) (data : Bytes) (err : Option Error)
  | Log (text : String)
  | Connect (url : String) (options : List NatsOption)
  | NewServeMux
  | Handle (pattern : String)
  | GoListenAndServe (addr : String)
  | Shutdown (ctx : Context)
  | Drain
  | Cancel
  | AwaitSignal
  deriving DecidableEq, Repr

/-- How a run ends: the function returns to its caller, the process exits, or the
goroutine panics. -/
inductive Outcome (α : Type) where
  | returned (value : α)
  | exited (code : Int)
  | panicked (reason : String)
  deriving DecidableEq, Repr

/-- A run of a piece of the program: the events it performs and how it ends. -/
structure Proc (α : Type) where
  trace : List Event
  outcome : Outcome α

/-- Sequencing: the second part runs only if the first returns. -/
def Proc.bind {α β : Type} (m : Proc α) (f : α → Proc β) : Proc β :=
  match m.outcome with
  | .returned a => ⟨m.trace ++ (f a).trace, (f a).outcome⟩
  | .exited c => ⟨m.trace, .exited c⟩
  | .panicked reason => ⟨m.trace, .panicked reason⟩

instance : Monad Proc where
  pure a := ⟨[], .returned a⟩
  bind := Proc.bind

/-- Perform one event and return `a`. -/
def perform {α : Type} (e : Event) (a : α) : Proc α := ⟨[e], .returned a⟩

/-- The call `log.Println(text)`. -/
def Println (text : String) : Proc Unit := perform (.Log text) ()

/-- The call `log.Printf(format, err)` with the one verb `%v` the program uses,
which renders the message of the error. -/
def Printf (before : String) (err : Error) (after : String) : Proc Unit :=
  perform (.Log (before ++ err.text ++ after)) ()

/-- The call `w.WriteHeader(statusCode)`. -/
def WriteHeader (statusCode : Nat) : Proc Unit := perform (.WriteHeader statusCode) ()

/-- The call `log.Fatalf(format, err)`: the line is logged and the process exits
with status 1. -/
def Fatalf {α : Type} (before : String) (err : Error) (after : String) : Proc α :=
  ⟨[.Log (before ++ err.text ++ after)], .exited 1⟩

/-- The constant `http.StatusOK`. -/
def StatusOK : Nat := 200

/-- The constant `http.StatusBadRequest`. -/
def StatusBadRequest : Nat := 400

/-- The constant `http.StatusInternalServerError`. -/
def StatusInternalServerError : Nat := 500

/-- The constant `http.MethodPost`. -/
def MethodPost : String := "POST"

/-- An `*http.Request` as far as the handler reads it. -/
structure Request where
  Method : String
  Body : Bytes
  deriving DecidableEq, Repr

/-- A `*nats.Conn`, given by what its methods answer: `Publish` returns an error or
nil for a subject and payload, `Drain` returns an error or nil. -/
structure Conn where
  PublishErr : String → Bytes → Option Error
  DrainErr : Option Error

/-- The call `nc.Publish(subject, data)`. -/
def Conn.Publish (nc : Conn) (subject : String) (data : Bytes) : Proc (Option Error) :=
  perform (.Publish subject data (nc.PublishErr subject data)) (nc.PublishErr subject data)

/-- The call `nc.Drain()`. It takes no context. -/
def Conn.Drain (nc : Conn) : Proc (Option Error) :=
  perform .Drain nc.DrainErr

/-- The environment of the program: the answers of the libraries it calls.
`Decode` is `json.NewDecoder(body).Decode(&req)` for a `TelemetryRequest`;
`Connect` is `nats.Connect`; `IdleAfter` is the time the HTTP server needs to close
its listeners and see every connection idle, `CloseErr` the error closing the
listeners returns. -/
structure Runtime where
  Decode : Bytes → Except Error TelemetryRequest
  Connect : String → List NatsOption → Except Error Conn
  IdleAfter : Nat
  CloseErr : Option Error
  Getenv : String → String
  Atoi : String → Except Error Int

/-! ## The telemetry endpoint -/

/-- The handler returned by `publishTelemetryEndpoint(nc)`, applied to a request.
The response writer is the `WriteHeader` events of the trace. -/
def publishTelemetryEndpoint (rt : Runtime) (nc : Conn) (r : Request) : Proc Unit :=
  if r.Method ≠ MethodPost then
    WriteHeader StatusBadRequest
  else do
    let decoded ← perform (.Decode r.Body) (rt.Decode r.Body)
    match decoded with
    | .error _ => do
      Println "can't decode user request"
      WriteHeader StatusInternalServerError
    | .ok req => do
      let msg : TelemetryMessage :=
        { DeviceId := req.DeviceId, Health := req.Health, GpsLevel := req.GpsLevel }
      let encoded ← perform (.Marshal msg) (Marshal msg.fields)
      match encoded with
      | .error _ => do
        Println "can't encode nats message"
        WriteHeader StatusInternalServerError
      | .ok msgBytes => do
        let subject := Sprintf subjectDeviceTelemetry [msg.DeviceId]
        let err ← nc.Publish subject msgBytes
        match err with
        | some _ => do
          Println "can't publish nats message"
          WriteHeader StatusInternalServerError
        | none =>
          Println "successfully handled send telemetry"

/-- The status line `net/http` sends for a handler run: the code of the first
`WriteHeader` call, and `200 OK` when the handler returns without calling it. -/
def responseStatus : List Event → Nat
  | [] => StatusOK
  | .WriteHeader code :: _ => code
  | _ :: rest => responseStatus rest

/-- The `Publish` calls of a run, in order: subject, payload and returned error. -/
def publishCalls : List Event → List (String × Bytes × Option Error)
  | [] => []
  | .Publish subject data err :: rest => (subject, data, err) :: publishCalls rest
  | _ :: rest => publishCalls rest

/-- The number of attempts to decode a request body in a run. -/
def decodeCalls : List Event → Nat
  | [] => 0
  | .Decode _ :: rest => decodeCalls rest + 1
  | _ :: rest => decodeCalls rest

/-- The lines written to the log in a run. -/
def logLines : List Event → List String
  | [] => []
  | .Log text :: rest => text :: logLines rest
  | _ :: rest => logLines rest

/-! ## The service -/

/-- The type `http.HandlerFunc`. -/
abbrev HandlerFunc := Request → Proc Unit

/-- An `*http.ServeMux`: the registered patterns with their handlers. -/
structure ServeMux where
  routes : List (String × HandlerFunc)

/-- The method `mux.Handle(pattern, handler)`. -/
def ServeMux.Handle (mux : ServeMux) (pattern : String) (handler : HandlerFunc) : ServeMux :=
  ⟨mux.routes ++ [(pattern, handler)]⟩

/-- An `*http.Server` with the two fields the program sets. -/
structure Server where
  Handler : ServeMux
  Addr : String

/-- The struct `Service`. -/
structure Service where
  Nc : Conn
  server : Server

/-- The constructor `NewService`: the returned pair `(*Service, error)`. -/
def NewService (rt : Runtime) (cfg : Config) : Proc (Option Service × Option Error) := do
  let res ← perform (.Connect cfg.NatsUrl cfg.NatsOptions) (rt.Connect cfg.NatsUrl cfg.NatsOptions)
  match res with
  | .error err => pure (none, some err)
  | .ok nc => do
    let mux ← perform .NewServeMux (ServeMux.mk [])
    let mux ← perform (.Handle "/telemetry")
      (mux.Handle "/telemetry" (publishTelemetryEndpoint rt nc))
    pure (some { Nc := nc, server := { Handler := mux, Addr := Sprintf ":%d" [cfg.Port] } }, none)

/-- The method `Service.Start`: a goroutine is spawned for `ListenAndServe` and the
caller goes on at once; what that goroutine does later is not part of the run. -/
def Service.Start (s : Service) : Proc Unit := do
  perform (.GoListenAndServe s.server.Addr) ()
  Println "service started"

/-- Model of `(*http.Server).Shutdown(ctx)`, as to its result: the error of closing
the listeners if every connection is idle before the deadline of the context,
the error of the context otherwise. When the call returns is not modelled. -/
def Server.Shutdown (rt : Runtime) (_srv : Server) (ctx : Context) : Proc (Option Error) :=
  match ctx.deadline with
  | none => perform (.Shutdown ctx) rt.CloseErr
  | some d =>
    if d < rt.IdleAfter then perform (.Shutdown ctx) (some DeadlineExceeded)
    else perform (.Shutdown ctx) rt.CloseErr

/-- The method `Service.Stop`. The deferred `cancel()` runs last. -/
def Service.Stop (rt : Runtime) (s : Service) : Proc Unit := do
  let ctx := WithTimeout Background stopTimeout
  let err ← s.server.Shutdown rt ctx
  match err with
  | some e => Printf "error during shutdown http server: " e "\n"
  | none => pure ()
  let err ← s.Nc.Drain
  match err with
  | some e => Printf "error durign drain nats connection: " e "\n"
  | none => pure ()
  perform .Cancel ()

/-- The blocking library calls of a run, by name and in order. -/
def blockingCalls : List Event → List String
  | [] => []
  | .Shutdown _ :: rest => "Shutdown" :: blockingCalls rest
  | .Drain :: rest => "Drain" :: blockingCalls rest
  | _ :: rest => blockingCalls rest

/-! ## The entry point (`cmd/server/main.go`) -/

/-- The constant `envNatsUrl`. -/
def envNatsUrl : String := "NATS_URL"

/-- The constant `envPort`. -/
def envPort : String := "PORT"

/-- The constant `defaultPort`. -/
def defaultPort : Int := 8081

/-- The constant `nats.DefaultURL`. -/
def DefaultURL : String := "nats://127.0.0.1:4222"

/-- The function `main`, up to the signal it waits for. -/
def main (rt : Runtime) : Proc Unit := do
  let natsUrl := if rt.Getenv envNatsUrl = "" then DefaultURL else rt.Getenv envNatsUrl
  let portStr := rt.Getenv envPort
  let port ← (if portStr ≠ "" then
      match rt.Atoi portStr with
      | .error err => Fatalf "can't set port: " err "\n"
      | .ok p => pure p
    else pure defaultPort)
  let cfg := NewConfig natsUrl port
  let res ← NewService rt cfg
  match res with
  | (_, some err) => Fatalf "can't create service: error = " err "\n"
  | (none, none) => ⟨[], .panicked "invalid memory address or nil pointer dereference"⟩
  | (some svc, none) => do
    svc.Start
    perform .AwaitSignal ()
    svc.Stop rt

/-! ## Sample inputs -/

/-- A request body as the end-to-end test sends it. -/
def sampleBody : Bytes :=
  asciiBytes "\x7b\"device_id\":7,\"gps_level\":3,\"health\":\"HEALTHTY\"\x7d"

/-- The reading `sampleBody` decodes to. -/
def sampleReading : TelemetryRequest :=
  { DeviceId := 7, Health := asciiBytes "HEALTHTY", GpsLevel := 3 }

/-- A bus connection that accepts every message and drains without error. -/
def healthyConn : Conn :=
  { PublishErr := fun _ _ => none, DrainErr := none }

/-- A bus connection whose reconnect attempts are used up: every publish fails; the
drain fails too. -/
def closedConn : Conn :=
  { PublishErr := fun _ _ => some ⟨"nats: connection closed"⟩,
    DrainErr := some ⟨"nats: connection closed"⟩ }

/-- An environment in which `sampleBody` decodes to `sampleReading`, every other
body is rejected, and the bus is reachable. -/
def sampleRuntime : Runtime :=
  { Decode := fun body =>
      if body = sampleBody then .ok sampleReading
      else .error ⟨"invalid character"⟩,
    Connect := fun _ _ => .ok healthyConn,
    IdleAfter := 0,
    CloseErr := none,
    Getenv := fun _ => "",
    Atoi := fun _ => .error ⟨"invalid syntax"⟩ }

/-- An environment in which the bus is unreachable and an HTTP connection stays
busy for forty seconds. -/
def degradedRuntime : Runtime :=
  { Decode := sampleRuntime.Decode,
    Connect := fun _ _ => .error ⟨"nats: no servers available for connection"⟩,
    IdleAfter := 40 * Second,
    CloseErr := none,
    Getenv := fun _ => "",
    Atoi := fun _ => .error ⟨"invalid syntax"⟩ }

/-- A service as `NewService` builds it for port 8081 on a given connection. -/
def sampleService (rt : Runtime) (nc : Conn) : Service :=
  { Nc := nc,
    server :=
      { Handler := ⟨[("/telemetry", publishTelemetryEndpoint rt nc)]⟩,
        Addr := ":8081" } }

/-! ## Decimal rendering -/

theorem digitChar_value (k : Nat) (hk : k < 10) : (Nat.digitChar k).toNat - 48 = k := by
  interval_cases k <;> rfl

theorem digitChar_ne_minus (k : Nat) (hk : k < 10) : Nat.digitChar k ≠ '-' := by
  interval_cases k <;> decide

theorem foldl_toDigitsCore (fuel : Nat) : ∀ (n : Nat) (ds : List Char), n < fuel →
    (Nat.toDigitsCore 10 fuel n ds).foldl (fun acc c => acc * 10 + (c.toNat - 48)) 0
      = ds.foldl (fun acc c => acc * 10 + (c.toNat - 48)) n := by
  induction fuel with
  | zero => intro n ds h; omega
  | succ fuel ih =>
    intro n ds h
    simp only [Nat.toDigitsCore]
    split
    · simp only [List.foldl_cons, Nat.zero_mul, Nat.zero_add]
      rw [digitChar_value _ (Nat.mod_lt _ (by decide))]
      congr 1
      omega
    · rw [ih (n / 10) _ (by omega)]
      simp only [List.foldl_cons]
      rw [digitChar_value _ (Nat.mod_lt _ (by decide))]
      congr 1
      omega

theorem decimalValue_toDigits (n : Nat) : decimalValue (Nat.toDigits 10 n) = n := by
  simp [decimalValue, Nat.toDigits, foldl_toDigitsCore (n + 1) n [] (by omega)]

theorem toDigitsCore_mem (fuel : Nat) : ∀ (n : Nat) (ds : List Char) (c : Char),
    c ∈ Nat.toDigitsCore 10 fuel n ds → c ∈ ds ∨ c ≠ '-' := by
  induction fuel with
  | zero => intro n ds c h; exact Or.inl h
  | succ fuel ih =>
    intro n ds c h
    simp only [Nat.toDigitsCore] at h
    split at h
    · rcases List.mem_cons.1 h with h | h
      · exact Or.inr (h ▸ digitChar_ne_minus _ (Nat.mod_lt _ (by decide)))
      · exact Or.inl h
    · rcases ih _ _ _ h with h | h
      · rcases List.mem_cons.1 h with h | h
        · exact Or.inr (h ▸ digitChar_ne_minus _ (Nat.mod_lt _ (by decide)))
        · exact Or.inl h
      · exact Or.inr h

/-- Reading back the rendering of an integer gives the integer. -/
theorem parseInteger_fmtInteger (v : Int) : parseInteger (fmtInteger v) = v := by
  unfold fmtInteger
  split
  · simp only [parseInteger, if_true, decimalValue_toDigits]
    omega
  · have hmem := toDigitsCore_mem (v.natAbs + 1) v.natAbs []
    have hval := decimalValue_toDigits v.natAbs
    unfold Nat.toDigits at *
    generalize Nat.toDigitsCore 10 (v.natAbs + 1) v.natAbs [] = l at *
    cases l with
    | nil => simp [decimalValue] at hval; simp [parseInteger]; omega
    | cons c rest =>
      have hc : c ≠ '-' := by
        rcases hmem c (List.mem_cons_self _ _) with h | h
        · simp at h
        · exact h
      simp only [parseInteger, hc, if_false, hval]
      omega

/-- The rendering of `%d` is the usual decimal numeral of the integer. -/
theorem fmtInteger_toString (v : Int) : String.mk (fmtInteger v) = toString v := by
  cases v with
  | ofNat m =>
    simp [fmtInteger]
    rfl
  | negSucc m =>
    simp [fmtInteger, Int.negSucc_lt_zero]
    rfl

theorem Sprintf_subject (d : Int) :
    Sprintf subjectDeviceTelemetry [d] = "device." ++ toString d ++ ".telemetry" := by
  rw [← fmtInteger_toString]; rfl

theorem Sprintf_subject_inj (d₁ d₂ : Int)
    (h : Sprintf subjectDeviceTelemetry [d₁] = Sprintf subjectDeviceTelemetry [d₂]) :
    d₁ = d₂ := by
  have h1 : ∀ d : Int, Sprintf subjectDeviceTelemetry [d]
      = ⟨"device.".data ++ (fmtInteger d ++ ".telemetry".data)⟩ := fun d => rfl
  rw [h1, h1] at h
  have h2 : "device.".data ++ (fmtInteger d₁ ++ ".telemetry".data)
      = "device.".data ++ (fmtInteger d₂ ++ ".telemetry".data) := congrArg String.data h
  have h3 := List.append_cancel_right (List.append_cancel_left h2)
  rw [← parseInteger_fmtInteger d₁, h3, parseInteger_fmtInteger]

/-! ## The encoder on telemetry messages -/

/-- A string of ASCII bytes that need no escape is written as it is between the
quotes. -/
theorem appendString_plain (s : Bytes) (h : ∀ b ∈ s, htmlSafeSet b.toNat = true) :
    appendString s = [0x22] ++ s ++ [0x22] := by
  have hloop : appendStringLoop 0 s = s := by
    induction s with
    | nil => rfl
    | cons b rest ih =>
      have hb := h b (List.mem_cons_self _ _)
      have hlt : b.toNat < 0x80 := by
        simp [htmlSafeSet, inRange] at hb
        omega
      simp only [appendStringLoop, hlt, if_true, hb]
      rw [ih (fun c hc => h c (List.mem_cons_of_mem _ hc))]
      rfl
  rw [appendString, hloop]

/-- The payload for the reading of device 7 with health `HEALTHTY` and gps level 3. -/
theorem telemetryJSON_sample :
    telemetryJSON 7 (asciiBytes "HEALTHTY") 3
      = asciiBytes "\x7b\"device_id\":7,\"health\":\"HEALTHTY\",\"gps_level\":3\x7d" := by
  decide

/-! ## Runs of the handler, branch by branch -/

/-- Encoding a telemetry message never fails and gives `telemetryJSON`. -/
theorem Marshal_fields (m : TelemetryMessage) :
    Marshal m.fields = .ok (telemetryJSON m.DeviceId m.Health m.GpsLevel) := by
  simp [Marshal, encodeFields, encodeValue, TelemetryMessage.fields, telemetryJSON, asciiBytes]

theorem handler_notPost (rt : Runtime) (nc : Conn) (r : Request) (hm : r.Method ≠ MethodPost) :
    publishTelemetryEndpoint rt nc r = ⟨[.WriteHeader StatusBadRequest], .returned ()⟩ := by
  simp [publishTelemetryEndpoint, hm, WriteHeader, perform]

theorem handler_decodeErr (rt : Runtime) (nc : Conn) (r : Request) (e : Error)
    (hm : r.Method = MethodPost) (hd : rt.Decode r.Body = .error e) :
    publishTelemetryEndpoint rt nc r
      = ⟨[.Decode r.Body, .Log "can't decode user request",
          .WriteHeader StatusInternalServerError], .returned ()⟩ := by
  simp [publishTelemetryEndpoint, hm, hd, WriteHeader, perform, bind, Proc.bind, Println]

theorem handler_publishErr (rt : Runtime) (nc : Conn) (r : Request) (req : TelemetryRequest)
    (e : Error) (hm : r.Method = MethodPost) (hd : rt.Decode r.Body = .ok req)
    (hp : nc.PublishErr (Sprintf subjectDeviceTelemetry [req.DeviceId])
      (telemetryJSON req.DeviceId req.Health req.GpsLevel) = some e) :
    publishTelemetryEndpoint rt nc r
      = ⟨[.Decode r.Body, .Marshal ⟨req.DeviceId, req.Health, req.GpsLevel⟩,
          .Publish (Sprintf subjectDeviceTelemetry [req.DeviceId])
            (telemetryJSON req.DeviceId req.Health req.GpsLevel) (some e),
          .Log "can't publish nats message",
          .WriteHeader StatusInternalServerError], .returned ()⟩ := by
  simp [publishTelemetryEndpoint, hm, hd, hp, WriteHeader, perform, bind, Proc.bind, Println,
    Marshal_fields, Conn.Publish]

theorem handler_publishOk (rt : Runtime) (nc : Conn) (r : Request) (req : TelemetryRequest)
    (hm : r.Method = MethodPost) (hd : rt.Decode r.Body = .ok req)
    (hp : nc.PublishErr (Sprintf subjectDeviceTelemetry [req.DeviceId])
      (telemetryJSON req.DeviceId req.Health req.GpsLevel) = none) :
    publishTelemetryEndpoint rt nc r
      = ⟨[.Decode r.Body, .Marshal ⟨req.DeviceId, req.Health, req.GpsLevel⟩,
          .Publish (Sprintf subjectDeviceTelemetry [req.DeviceId])
            (telemetryJSON req.DeviceId req.Health req.GpsLevel) none,
          .Log "successfully handled send telemetry"], .returned ()⟩ := by
  simp [publishTelemetryEndpoint, hm, hd, hp, perform, bind, Proc.bind, Println,
    Marshal_fields, Conn.Publish]

/-! ## The endpoint contract -/

/-- C1: a POST request whose body decodes to the reading (d, h, g), and whose
publish call returns no error, is answered with status 200, and the run makes
exactly one publish call: on subject `device.<d>.telemetry`, with the JSON object
of `device_id` d, `health` h and `gps_level` g, which is what `json.Marshal` gives
for the message. -/
theorem C1_accepted_request_publishes_once (rt : Runtime) (nc : Conn) (r : Request)
    (d : Int) (h : Bytes) (g : Int)
    (hm : r.Method = MethodPost)
    (hd : rt.Decode r.Body = .ok ⟨d, h, g⟩)
    (hp : nc.PublishErr ("device." ++ toString d ++ ".telemetry") (telemetryJSON d h g) = none) :
    responseStatus (publishTelemetryEndpoint rt nc r).trace = 200
    ∧ publishCalls (publishTelemetryEndpoint rt nc r).trace
        = [("device." ++ toString d ++ ".telemetry", telemetryJSON d h g, none)]
    ∧ Marshal (TelemetryMessage.mk d h g).fields = .ok (telemetryJSON d h g) := by
  rw [← Sprintf_subject] at hp ⊢
  rw [handler_publishOk rt nc r ⟨d, h, g⟩ hm hd hp]
  exact ⟨rfl, rfl, Marshal_fields _⟩

/-- C1 at the request of the end-to-end test on a reachable bus. -/
theorem C1_accepted_request_publishes_once_witness :
    (Request.mk "POST" sampleBody).Method = MethodPost
    ∧ sampleRuntime.Decode (Request.mk "POST" sampleBody).Body
        = .ok ⟨7, asciiBytes "HEALTHTY", 3⟩
    ∧ healthyConn.PublishErr ("device." ++ toString (7 : Int) ++ ".telemetry")
        (telemetryJSON 7 (asciiBytes "HEALTHTY") 3) = none
    ∧ responseStatus (publishTelemetryEndpoint sampleRuntime healthyConn
        (Request.mk "POST" sampleBody)).trace = 200
    ∧ publishCalls (publishTelemetryEndpoint sampleRuntime healthyConn
        (Request.mk "POST" sampleBody)).trace
        = [("device." ++ toString (7 : Int) ++ ".telemetry",
            telemetryJSON 7 (asciiBytes "HEALTHTY") 3, none)]
    ∧ Marshal (TelemetryMessage.mk 7 (asciiBytes "HEALTHTY") 3).fields
        = .ok (telemetryJSON 7 (asciiBytes "HEALTHTY") 3) :=
  ⟨rfl, rfl, rfl,
    C1_accepted_request_publishes_once sampleRuntime healthyConn (Request.mk "POST" sampleBody)
      7 (asciiBytes "HEALTHTY") 3 rfl rfl rfl⟩

/-- C2: when the body of a POST request decodes and the publish call returns an
error, the response status is 500 and the run contains that one publish call and
no other: the handler does not retry. -/
theorem C2_publish_error_gives_500_without_retry (rt : Runtime) (nc : Conn) (r : Request)
    (req : TelemetryRequest) (e : Error)
    (hm : r.Method = MethodPost)
    (hd : rt.Decode r.Body = .ok req)
    (hp : nc.PublishErr (Sprintf subjectDeviceTelemetry [req.DeviceId])
      (telemetryJSON req.DeviceId req.Health req.GpsLevel) = some e) :
    responseStatus (publishTelemetryEndpoint rt nc r).trace = 500
    ∧ publishCalls (publishTelemetryEndpoint rt nc r).trace
        = [(Sprintf subjectDeviceTelemetry [req.DeviceId],
            telemetryJSON req.DeviceId req.Health req.GpsLevel, some e)]
    ∧ (publishCalls (publishTelemetryEndpoint rt nc r).trace).length = 1 := by
  rw [handler_publishErr rt nc r req e hm hd hp]
  exact ⟨rfl, rfl, rfl⟩

/-- C2 on a connection whose reconnect attempts are used up. -/
theorem C2_publish_error_gives_500_without_retry_witness :
    (Request.mk "POST" sampleBody).Method = MethodPost
    ∧ sampleRuntime.Decode (Request.mk "POST" sampleBody).Body = .ok sampleReading
    ∧ closedConn.PublishErr (Sprintf subjectDeviceTelemetry [sampleReading.DeviceId])
        (telemetryJSON sampleReading.DeviceId sampleReading.Health sampleReading.GpsLevel)
        = some ⟨"nats: connection closed"⟩
    ∧ responseStatus (publishTelemetryEndpoint sampleRuntime closedConn
        (Request.mk "POST" sampleBody)).trace = 500
    ∧ publishCalls (publishTelemetryEndpoint sampleRuntime closedConn
        (Request.mk "POST" sampleBody)).trace
        = [(Sprintf subjectDeviceTelemetry [sampleReading.DeviceId],
            telemetryJSON sampleReading.DeviceId sampleReading.Health sampleReading.GpsLevel,
            some ⟨"nats: connection closed"⟩)]
    ∧ (publishCalls (publishTelemetryEndpoint sampleRuntime closedConn
        (Request.mk "POST" sampleBody)).trace).length = 1 :=
  ⟨rfl, rfl, rfl,
    C2_publish_error_gives_500_without_retry sampleRuntime closedConn
      (Request.mk "POST" sampleBody) sampleReading ⟨"nats: connection closed"⟩ rfl rfl rfl⟩

/-- C3: a POST request whose body fails to decode is answered with status 500 and
the run makes no publish call. -/
theorem C3_decode_error_gives_500_and_no_publish (rt : Runtime) (nc : Conn) (r : Request)
    (e : Error)
    (hm : r.Method = MethodPost)
    (hd : rt.Decode r.Body = .error e) :
    responseStatus (publishTelemetryEndpoint rt nc r).trace = 500
    ∧ publishCalls (publishTelemetryEndpoint rt nc r).trace = [] := by
  rw [handler_decodeErr rt nc r e hm hd]
  exact ⟨rfl, rfl⟩

/-- C3 at a truncated body. -/
theorem C3_decode_error_gives_500_and_no_publish_witness :
    (Request.mk "POST" (asciiBytes "\x7b\"device_id\":")).Method = MethodPost
    ∧ sampleRuntime.Decode (Request.mk "POST" (asciiBytes "\x7b\"device_id\":")).Body
        = .error ⟨"invalid character"⟩
    ∧ responseStatus (publishTelemetryEndpoint sampleRuntime healthyConn
        (Request.mk "POST" (asciiBytes "\x7b\"device_id\":"))).trace = 500
    ∧ publishCalls (publishTelemetryEndpoint sampleRuntime healthyConn
        (Request.mk "POST" (asciiBytes "\x7b\"device_id\":"))).trace = [] :=
  ⟨rfl, rfl,
    C3_decode_error_gives_500_and_no_publish sampleRuntime healthyConn
      (Request.mk "POST" (asciiBytes "\x7b\"device_id\":")) ⟨"invalid character"⟩ rfl
      rfl⟩

/-- C4: a request whose method is not POST is answered with status 400; the run
neither decodes the body nor publishes, whatever the body is and whether or not it
would decode. -/
theorem C4_other_method_gives_400 (rt : Runtime) (nc : Conn) (r : Request)
    (hm : r.Method ≠ MethodPost) :
    responseStatus (publishTelemetryEndpoint rt nc r).trace = 400
    ∧ decodeCalls (publishTelemetryEndpoint rt nc r).trace = 0
    ∧ publishCalls (publishTelemetryEndpoint rt nc r).trace = [] := by
  rw [handler_notPost rt nc r hm]
  exact ⟨rfl, rfl, rfl⟩

/-- C4 at a GET request with a truncated body. -/
theorem C4_other_method_gives_400_witness :
    (Request.mk "GET" (asciiBytes "\x7b\"device_id\":")).Method ≠ MethodPost
    ∧ responseStatus (publishTelemetryEndpoint sampleRuntime healthyConn
        (Request.mk "GET" (asciiBytes "\x7b\"device_id\":"))).trace = 400
    ∧ decodeCalls (publishTelemetryEndpoint sampleRuntime healthyConn
        (Request.mk "GET" (asciiBytes "\x7b\"device_id\":"))).trace = 0
    ∧ publishCalls (publishTelemetryEndpoint sampleRuntime healthyConn
        (Request.mk "GET" (asciiBytes "\x7b\"device_id\":"))).trace = [] :=
  ⟨by decide,
    C4_other_method_gives_400 sampleRuntime healthyConn
      (Request.mk "GET" (asciiBytes "\x7b\"device_id\":")) (by decide)⟩

/-- The run of the handler on any request is one of four traces: the method guard,
the decode failure, the publish failure and the success. -/
theorem handler_cases (rt : Runtime) (nc : Conn) (r : Request) :
    (r.Method ≠ MethodPost
      ∧ publishTelemetryEndpoint rt nc r = ⟨[.WriteHeader StatusBadRequest], .returned ()⟩)
    ∨ (∃ e, r.Method = MethodPost ∧ rt.Decode r.Body = .error e
      ∧ publishTelemetryEndpoint rt nc r
        = ⟨[.Decode r.Body, .Log "can't decode user request",
            .WriteHeader StatusInternalServerError], .returned ()⟩)
    ∨ (∃ req e, r.Method = MethodPost ∧ rt.Decode r.Body = .ok req
      ∧ publishTelemetryEndpoint rt nc r
        = ⟨[.Decode r.Body, .Marshal ⟨req.DeviceId, req.Health, req.GpsLevel⟩,
            .Publish (Sprintf subjectDeviceTelemetry [req.DeviceId])
              (telemetryJSON req.DeviceId req.Health req.GpsLevel) (some e),
            .Log "can't publish nats message",
            .WriteHeader StatusInternalServerError], .returned ()⟩)
    ∨ (∃ req, r.Method = MethodPost ∧ rt.Decode r.Body = .ok req
      ∧ publishTelemetryEndpoint rt nc r
        = ⟨[.Decode r.Body, .Marshal ⟨req.DeviceId, req.Health, req.GpsLevel⟩,
            .Publish (Sprintf subjectDeviceTelemetry [req.DeviceId])
              (telemetryJSON req.DeviceId req.Health req.GpsLevel) none,
            .Log "successfully handled send telemetry"], .returned ()⟩) := by
  by_cases hm : r.Method = MethodPost
  · cases hd : rt.Decode r.Body with
    | error e => exact Or.inr (Or.inl ⟨e, hm, rfl, handler_decodeErr rt nc r e hm hd⟩)
    | ok req =>
      cases hp : nc.PublishErr (Sprintf subjectDeviceTelemetry [req.DeviceId])
          (telemetryJSON req.DeviceId req.Health req.GpsLevel) with
      | some e =>
        exact Or.inr (Or.inr (Or.inl ⟨req, e, hm, rfl, handler_publishErr rt nc r req e hm hd hp⟩))
      | none =>
        exact Or.inr (Or.inr (Or.inr ⟨req, hm, rfl, handler_publishOk rt nc r req hm hd hp⟩))
  · exact Or.inl ⟨hm, handler_notPost rt nc r hm⟩

/-- C5: whatever the method, the body and the answer of the bus client, a run of the
handler makes at most one publish call; the response status is 200 exactly when
the run made one publish call and that call returned no error; in every other
run the status is 400 or 500 and no publish call returned without error. -/
theorem C5_status_200_iff_one_accepted_publish (rt : Runtime) (nc : Conn) (r : Request) :
    (publishCalls (publishTelemetryEndpoint rt nc r).trace).length ≤ 1
    ∧ (responseStatus (publishTelemetryEndpoint rt nc r).trace = 200
        ↔ ∃ subject data,
            publishCalls (publishTelemetryEndpoint rt nc r).trace = [(subject, data, none)])
    ∧ (responseStatus (publishTelemetryEndpoint rt nc r).trace ≠ 200 →
        (responseStatus (publishTelemetryEndpoint rt nc r).trace = 400
          ∨ responseStatus (publishTelemetryEndpoint rt nc r).trace = 500)
        ∧ ∀ call ∈ publishCalls (publishTelemetryEndpoint rt nc r).trace, call.2.2 ≠ none) := by
  rcases handler_cases rt nc r with ⟨_, h⟩ | ⟨e, _, _, h⟩ | ⟨req, e, _, _, h⟩ | ⟨req, _, _, h⟩
  all_goals rw [h]
  all_goals simp [responseStatus, publishCalls, StatusBadRequest, StatusInternalServerError,
    StatusOK]

/-- The subjects of the publish calls of a run on a POST request that decodes. -/
theorem handler_subjects (rt : Runtime) (nc : Conn) (r : Request) (req : TelemetryRequest)
    (hm : r.Method = MethodPost) (hd : rt.Decode r.Body = .ok req) :
    (publishCalls (publishTelemetryEndpoint rt nc r).trace).map (fun call => call.1)
      = [Sprintf subjectDeviceTelemetry [req.DeviceId]] := by
  cases hp : nc.PublishErr (Sprintf subjectDeviceTelemetry [req.DeviceId])
      (telemetryJSON req.DeviceId req.Health req.GpsLevel) with
  | some e => rw [handler_publishErr rt nc r req e hm hd hp]; rfl
  | none => rw [handler_publishOk rt nc r req hm hd hp]; rfl

/-- C6: the subject the handler publishes on is `device.` followed by the decimal
numeral of the device id (negative and zero included) followed by `.telemetry`;
two requests, whatever their health and gps level, the environment and the
connection, are published on the same subject exactly when their device ids are
equal. -/
theorem C6_subject_is_function_of_device_id (rt₁ rt₂ : Runtime) (nc₁ nc₂ : Conn)
    (r₁ r₂ : Request) (req₁ req₂ : TelemetryRequest)
    (hm₁ : r₁.Method = MethodPost) (hd₁ : rt₁.Decode r₁.Body = .ok req₁)
    (hm₂ : r₂.Method = MethodPost) (hd₂ : rt₂.Decode r₂.Body = .ok req₂) :
    (publishCalls (publishTelemetryEndpoint rt₁ nc₁ r₁).trace).map (fun call => call.1)
        = ["device." ++ toString req₁.DeviceId ++ ".telemetry"]
    ∧ ((publishCalls (publishTelemetryEndpoint rt₁ nc₁ r₁).trace).map (fun call => call.1)
          = (publishCalls (publishTelemetryEndpoint rt₂ nc₂ r₂).trace).map (fun call => call.1)
        ↔ req₁.DeviceId = req₂.DeviceId) := by
  rw [handler_subjects rt₁ nc₁ r₁ req₁ hm₁ hd₁, handler_subjects rt₂ nc₂ r₂ req₂ hm₂ hd₂]
  refine ⟨by rw [Sprintf_subject], ?_, ?_⟩
  · intro h
    exact Sprintf_subject_inj _ _ (List.head_eq_of_cons_eq h)
  · intro h
    rw [h]

/-- C6 at two requests of device -5, one healthy on a reachable bus and one not on a
closed connection. -/
theorem C6_subject_is_function_of_device_id_witness :
    (Request.mk "POST" [1]).Method = MethodPost
    ∧ (Runtime.mk (fun _ => .ok ⟨-5, asciiBytes "HEALTHTY", 3⟩) (fun _ _ => .ok healthyConn)
        0 none (fun _ => "") (fun _ => .ok 0)).Decode (Request.mk "POST" [1]).Body
        = .ok ⟨-5, asciiBytes "HEALTHTY", 3⟩
    ∧ (Request.mk "POST" [2]).Method = MethodPost
    ∧ (Runtime.mk (fun _ => .ok ⟨-5, [], 0⟩) (fun _ _ => .ok healthyConn)
        0 none (fun _ => "") (fun _ => .ok 0)).Decode (Request.mk "POST" [2]).Body
        = .ok ⟨-5, [], 0⟩
    ∧ (publishCalls (publishTelemetryEndpoint
          (Runtime.mk (fun _ => .ok ⟨-5, asciiBytes "HEALTHTY", 3⟩) (fun _ _ => .ok healthyConn)
            0 none (fun _ => "") (fun _ => .ok 0)) healthyConn
          (Request.mk "POST" [1])).trace).map (fun call => call.1)
        = ["device." ++ toString (TelemetryRequest.mk (-5) (asciiBytes "HEALTHTY") 3).DeviceId
            ++ ".telemetry"]
    ∧ ((publishCalls (publishTelemetryEndpoint
          (Runtime.mk (fun _ => .ok ⟨-5, asciiBytes "HEALTHTY", 3⟩) (fun _ _ => .ok healthyConn)
            0 none (fun _ => "") (fun _ => .ok 0)) healthyConn
          (Request.mk "POST" [1])).trace).map (fun call => call.1)
        = (publishCalls (publishTelemetryEndpoint
          (Runtime.mk (fun _ => .ok ⟨-5, [], 0⟩) (fun _ _ => .ok healthyConn)
            0 none (fun _ => "") (fun _ => .ok 0)) closedConn
          (Request.mk "POST" [2])).trace).map (fun call => call.1)
        ↔ (TelemetryRequest.mk (-5) (asciiBytes "HEALTHTY") 3).DeviceId
            = (TelemetryRequest.mk (-5) [] 0).DeviceId) :=
  ⟨rfl, rfl, rfl, rfl,
    C6_subject_is_function_of_device_id _ _ healthyConn closedConn
      (Request.mk "POST" [1]) (Request.mk "POST" [2])
      ⟨-5, asciiBytes "HEALTHTY", 3⟩ ⟨-5, [], 0⟩ rfl rfl rfl rfl⟩

/-- The encoder does reject structs with a field of a kind it does not support. -/
theorem Marshal_unsupported :
    Marshal [("device_id", .int 1), ("done", .unsupported "chan int")]
      = .error ⟨"json: unsupported type: chan int"⟩ := by
  rfl

/-- C10: encoding a telemetry message succeeds for every device id, every health
string (empty, or not valid UTF-8, included) and every gps level; therefore no
run of the handler logs the encoding failure, and a response with status 500
comes with a decode failure or with a publish call that returned an error. -/
theorem C10_encode_branch_unreachable (rt : Runtime) (nc : Conn) (r : Request)
    (m : TelemetryMessage) :
    (∃ data, Marshal m.fields = .ok data)
    ∧ "can't encode nats message" ∉ logLines (publishTelemetryEndpoint rt nc r).trace
    ∧ (responseStatus (publishTelemetryEndpoint rt nc r).trace = 500 →
        (∃ e, rt.Decode r.Body = .error e)
        ∨ ∃ call ∈ publishCalls (publishTelemetryEndpoint rt nc r).trace, call.2.2 ≠ none) := by
  refine ⟨⟨_, Marshal_fields m⟩, ?_, ?_⟩
  · rcases handler_cases rt nc r with ⟨_, h⟩ | ⟨e, _, _, h⟩ | ⟨req, e, _, _, h⟩ | ⟨req, _, _, h⟩
    all_goals rw [h]
    all_goals simp [logLines]
  · rcases handler_cases rt nc r with ⟨_, h⟩ | ⟨e, _, hd, h⟩ | ⟨req, e, _, _, h⟩ | ⟨req, _, _, h⟩
    · rw [h]; simp [responseStatus, StatusBadRequest]
    · exact fun _ => Or.inl ⟨e, hd⟩
    · rw [h]; simp [publishCalls]
    · rw [h]; simp [responseStatus, StatusOK]

/-! ## Construction and shutdown of the service -/

theorem Sprintf_addr (port : Int) : Sprintf ":%d" [port] = ":" ++ toString port := by
  rw [← fmtInteger_toString]
  have h : Sprintf ":%d" [port] = ⟨':' :: (fmtInteger port ++ [])⟩ := rfl
  rw [h, List.append_nil]
  rfl

/-- C8: `NewService` returns an error exactly when `nats.Connect` fails. On failure
it returns a nil service and the error of `Connect` as it is, after that one call
and nothing else (no second attempt, no mux, no handler). On success it returns
no error and a service that holds the connection `Connect` returned and a server
with address `:<cfg.Port>` whose mux has the telemetry handler of that
connection under `/telemetry`. -/
theorem C8_NewService_fails_iff_connect_fails (rt : Runtime) (cfg : Config) :
    ((∃ svc e, (NewService rt cfg).outcome = .returned (svc, some e))
      ↔ ∃ e, rt.Connect cfg.NatsUrl cfg.NatsOptions = .error e)
    ∧ match rt.Connect cfg.NatsUrl cfg.NatsOptions with
      | .error e =>
        NewService rt cfg
          = ⟨[.Connect cfg.NatsUrl cfg.NatsOptions], .returned (none, some e)⟩
      | .ok nc =>
        NewService rt cfg
          = ⟨[.Connect cfg.NatsUrl cfg.NatsOptions, .NewServeMux, .Handle "/telemetry"],
              .returned
                (some { Nc := nc,
                        server :=
                          { Handler := ⟨[("/telemetry", publishTelemetryEndpoint rt nc)]⟩,
                            Addr := ":" ++ toString cfg.Port } },
                 none)⟩ := by
  cases hc : rt.Connect cfg.NatsUrl cfg.NatsOptions with
  | error e =>
    have h : NewService rt cfg
        = ⟨[.Connect cfg.NatsUrl cfg.NatsOptions], .returned (none, some e)⟩ := by
      simp [NewService, hc, perform, bind, Proc.bind, pure]
    refine ⟨?_, h⟩
    rw [h]
    exact ⟨fun _ => ⟨e, rfl⟩, fun _ => ⟨none, e, rfl⟩⟩
  | ok nc =>
    have h : NewService rt cfg
        = ⟨[.Connect cfg.NatsUrl cfg.NatsOptions, .NewServeMux, .Handle "/telemetry"],
            .returned
              (some { Nc := nc,
                      server :=
                        { Handler := ⟨[("/telemetry", publishTelemetryEndpoint rt nc)]⟩,
                          Addr := ":" ++ toString cfg.Port } },
               none)⟩ := by
      rw [← Sprintf_addr]
      simp [NewService, hc, perform, bind, Proc.bind, pure, ServeMux.Handle]
    refine ⟨?_, h⟩
    rw [h]
    constructor
    · rintro ⟨svc, e, he⟩
      simp at he
    · rintro ⟨e, he⟩
      simp at he

/-- With the bus unreachable `NewService` stops after the call of `Connect`. -/
theorem NewService_unreachable :
    NewService degradedRuntime (NewConfig DefaultURL defaultPort)
      = ⟨[.Connect DefaultURL []],
          .returned (none, some ⟨"nats: no servers available for connection"⟩)⟩ := by
  rfl

/-- With the bus unreachable `main` logs the error and exits with status 1. -/
theorem main_unreachable :
    (main degradedRuntime).outcome = .exited 1
    ∧ (main degradedRuntime).trace
        = [.Connect DefaultURL [],
           .Log "can't create service: error = nats: no servers available for connection\n"] := by
  decide

/-- The run of `Stop`: the shutdown of the listener under the context of
`stopTimeout`, the log line of its error if any, the drain of the connection, the
log line of its error if any, and the deferred cancel. -/
theorem Stop_run (rt : Runtime) (s : Service) :
    s.Stop rt
      = ⟨[.Shutdown ⟨some stopTimeout⟩]
          ++ ((if stopTimeout < rt.IdleAfter then some DeadlineExceeded else rt.CloseErr).toList.map
              (fun e => Event.Log ("error during shutdown http server: " ++ e.text ++ "\n")))
          ++ [.Drain]
          ++ (s.Nc.DrainErr.toList.map
              (fun e => Event.Log ("error durign drain nats connection: " ++ e.text ++ "\n")))
          ++ [.Cancel],
         .returned ()⟩ := by
  have hctx : WithTimeout Background stopTimeout = ⟨some stopTimeout⟩ := rfl
  by_cases hlt : stopTimeout < rt.IdleAfter
  · cases hde : s.Nc.DrainErr <;>
      simp [Service.Stop, Server.Shutdown, Conn.Drain, hctx, hlt, hde, perform, bind,
        Proc.bind, pure, Printf]
  · cases hde : s.Nc.DrainErr <;> cases hce : rt.CloseErr <;>
      simp [Service.Stop, Server.Shutdown, Conn.Drain, hctx, hlt, hde, hce, perform, bind,
        Proc.bind, pure, Printf]

/-- C7: whatever the listener shutdown returns (`se`) and whatever the drain returns
(`de`), `Stop` calls `Shutdown` first and `Drain` second, logs one line for each
of the two that returned an error and nothing else, and returns to its caller:
it does not exit the process and does not panic. -/
theorem C7_stop_is_best_effort (rt : Runtime) (s : Service) (se de : Option Error)
    (hs : (s.server.Shutdown rt (WithTimeout Background stopTimeout)).outcome = .returned se)
    (hd : s.Nc.DrainErr = de) :
    (s.Stop rt).outcome = .returned ()
    ∧ blockingCalls (s.Stop rt).trace = ["Shutdown", "Drain"]
    ∧ logLines (s.Stop rt).trace
        = se.toList.map (fun e => "error during shutdown http server: " ++ e.text ++ "\n")
          ++ de.toList.map (fun e => "error durign drain nats connection: " ++ e.text ++ "\n") := by
  have hse : se = if stopTimeout < rt.IdleAfter then some DeadlineExceeded else rt.CloseErr := by
    have hctx : WithTimeout Background stopTimeout = ⟨some stopTimeout⟩ := rfl
    rw [hctx] at hs
    by_cases hlt : stopTimeout < rt.IdleAfter
    · simp [Server.Shutdown, hlt, perform] at hs
      simp [hlt, hs]
    · simp [Server.Shutdown, hlt, perform] at hs
      simp [hlt, hs]
  rw [Stop_run, ← hse, hd]
  refine ⟨rfl, ?_, ?_⟩
  · cases se <;> cases de <;> rfl
  · cases se <;> cases de <;> rfl

/-- C7 where both steps fail: the shutdown runs into the deadline and the drain is
refused by a closed connection. -/
theorem C7_stop_is_best_effort_witness :
    ((sampleService degradedRuntime closedConn).server.Shutdown degradedRuntime
        (WithTimeout Background stopTimeout)).outcome = .returned (some DeadlineExceeded)
    ∧ (sampleService degradedRuntime closedConn).Nc.DrainErr = some ⟨"nats: connection closed"⟩
    ∧ ((sampleService degradedRuntime closedConn).Stop degradedRuntime).outcome = .returned ()
    ∧ blockingCalls ((sampleService degradedRuntime closedConn).Stop degradedRuntime).trace
        = ["Shutdown", "Drain"]
    ∧ logLines ((sampleService degradedRuntime closedConn).Stop degradedRuntime).trace
        = (some DeadlineExceeded).toList.map
            (fun e => "error during shutdown http server: " ++ e.text ++ "\n")
          ++ (some (Error.mk "nats: connection closed")).toList.map
            (fun e => "error durign drain nats connection: " ++ e.text ++ "\n") :=
  ⟨by decide, rfl,
    C7_stop_is_best_effort degradedRuntime (sampleService degradedRuntime closedConn)
      (some DeadlineExceeded) (some ⟨"nats: connection closed"⟩) (by decide) rfl⟩

end app
